import Mathlib

/-!
# Verification of the tududi task-modal editing logic

Shallow embedding of `src/frontend/components/Task/TaskModal.tsx` (the
recurrence / parent-child editing session of the tududi task manager) and
proofs about its handlers and asynchronous effects.

Conventions of the embedding:
* React component state (`useState` cells) becomes the record `ModalState`;
  each event handler / effect body of the source becomes a pure function
  `ModalState → ModalState`.
* Asynchronous operations (`fetchTaskById`, `fetchTags`,
  `getTaskIntelligenceEnabled`) are split at their `await` point into a
  `_begin` function (the code up to and including issuing the request) and a
  `_settle` function (the continuation that receives either the resolved
  value or the thrown error, i.e. the `try`/`catch`/`finally` tail).
* Outward calls (`onSave`, `onClose`, `onEditParentTask`) are recorded, in
  call order, in the `emitted` signal list; `console.error` bumps
  `loggedErrors`; `showErrorToast` bumps `errorToasts`.
* JavaScript object spread with a computed key (`{...prev, [field]: value}`)
  on the recurrence-configuration keys is embedded as an update of the
  association list `Task.recurrence`.
-/

namespace Tududi

/-- `PriorityType` from `entities/Task`: the union `'low' | 'medium' | 'high'`
(inferred from `priorityNames: PriorityType[] = ['low', 'medium', 'high']`). -/
inductive PriorityType where
  | low
  | medium
  | high
deriving DecidableEq, Repr

/-- `StatusType` from `entities/Task`: the task status union
(`not_started`, `in_progress`, `done`, … per spec §3). -/
inductive StatusType where
  | not_started
  | in_progress
  | done
  | archived
  | waiting
deriving DecidableEq, Repr

/-- A JavaScript value as passed for a dynamic `[field]: value` update
(recurrence-configuration fields carry strings, numbers or booleans). -/
inductive Val where
  | s (v : String)
  | n (v : Int)
  | b (v : Bool)
deriving DecidableEq, Repr

/-- The type `PriorityType | number` of a task's `priority` field as consumed
by `getPriorityString`; a JavaScript number is a rational (doubles that occur
here are exact on 0, 1, 2 and the claim's negative / non-integer cases). -/
inductive JsPriority where
  | num (q : ℚ)
  | str (p : PriorityType)
deriving DecidableEq, Repr

/-- JavaScript array indexing `arr[q]` with a numeric key: an element is
returned exactly when the number is a non-negative integer below the length,
otherwise the access yields `undefined` (`none`). -/
def jsArrayGet (l : List PriorityType) (q : ℚ) : Option PriorityType :=
  if q.den = 1 ∧ 0 ≤ q.num then l.get? q.num.toNat else none

/-- `priorityNames` from `getPriorityString`. -/
def priorityNames : List PriorityType :=
  [PriorityType.low, PriorityType.medium, PriorityType.high]

/-- `getPriorityString` (TaskModal.tsx lines 224-232):
`typeof priority === 'number'` → `priorityNames[priority] || 'medium'`;
otherwise `priority || 'medium'`.  `Option.getD` models `|| 'medium'`
(every `PriorityType` string is truthy, `undefined` is falsy). -/
def getPriorityString (priority : Option JsPriority) : PriorityType :=
  match priority with
  | some (JsPriority.num q) => (jsArrayGet priorityNames q).getD PriorityType.medium
  | some (JsPriority.str p) => p
  | none => PriorityType.medium

/-- Modelled from the spec: the suggestion set produced by the heuristic
analyzer of `utils/taskIntelligenceService` (not among the sources).  Spec
§4.2: "a small structured suggestion set (e.g., candidate due date, candidate
priority keyword)". -/
structure TaskAnalysis where
  dueDateCandidates : List String
  priorityCandidates : List String
deriving DecidableEq, Repr

/-- Splitting a character list at a separator (the word boundaries of a task
title). -/
def splitOnChar (sep : Char) : List Char → List (List Char)
  | [] => [[]]
  | c :: cs =>
      match splitOnChar sep cs with
      | [] => [[]]
      | w :: ws => if c = sep then [] :: w :: ws else (c :: w) :: ws

/-- Modelled from the spec: `analyzeTaskName` of
`utils/taskIntelligenceService` is not among the sources.  Spec §4.2 and §8
describe a pure, stateless string-pattern-matching function over the title
that suggests candidate due dates (the title "Pay rent tomorrow" yields a
due-date candidate for "tomorrow") and candidate priority keywords. -/
def analyzeTaskName (title : String) : TaskAnalysis :=
  let words := splitOnChar ' ' title.data
  { dueDateCandidates :=
      (words.filter fun w => w = "tomorrow".data ∨ w = "today".data).map String.mk
    priorityCandidates :=
      (words.filter fun w => w = "urgent".data ∨ w = "important".data).map String.mk }

/-- Lookup of a dynamic field: the value stored at key `k` (JavaScript
property access on the recurrence-configuration part of a task object). -/
def getDyn (l : List (String × Val)) (k : String) : Option Val :=
  (l.find? fun p => p.1 = k).map Prod.snd

/-- Object spread with a computed key, `{...obj, [k]: v}`, restricted to the
recurrence-configuration keys: an existing key is overwritten in place, a new
key is appended (JavaScript key order). -/
def setDyn (l : List (String × Val)) (k : String) (v : Val) : List (String × Val) :=
  if l.any (fun p => p.1 = k) then
    l.map fun p => if p.1 = k then (k, v) else p
  else
    l ++ [(k, v)]

theorem getDyn_setDyn_self (l : List (String × Val)) (k : String) (v : Val) :
    getDyn (setDyn l k v) k = some v := by
  unfold setDyn
  by_cases h : l.any (fun p => p.1 = k)
  · simp only [h, if_true]
    induction l with
    | nil => simp at h
    | cons a t ih =>
        by_cases ha : a.1 = k
        · simp [getDyn, List.find?, ha]
        · simp only [List.any_cons, ha, decide_eq_true_eq, Bool.false_or] at h
          simp only [List.map_cons, if_neg ha]
          simpa [getDyn, List.find?, ha] using ih h
  · simp only [h, if_false]
    induction l with
    | nil => simp [getDyn, List.find?]
    | cons a t ih =>
        simp only [List.any_cons, Bool.or_eq_true, decide_eq_true_eq] at h
        push_neg at h
        simp only [List.cons_append]
        simpa [getDyn, List.find?, h.1] using ih (by simpa using h.2)

/-- `Task` from `entities/Task`, restricted to the fields TaskModal reads or
writes.  `tags` keeps the tag names (the source's `{ name }` objects are
name-keyed, order-irrelevant per spec §3); the optional
recurrence-configuration fields (`recurrence_type`, interval, weekday set, …)
live in the `recurrence` association list so that the source's computed-key
spreads can be embedded directly. -/
structure Task where
  id : Option Nat := none
  uuid : Option String := none
  name : String := ""
  note : Option String := none
  status : Option StatusType := none
  priority : Option JsPriority := none
  due_date : Option String := none
  project_id : Option Nat := none
  tags : List String := []
  today : Option Bool := none
  recurring_parent_id : Option Nat := none
  update_parent_recurrence : Option Bool := none
  recurrence : List (String × Val) := []
deriving DecidableEq, Repr

/-- `Project` from `entities/Project.ts`, restricted to the fields TaskModal
uses (`id`, `name`). -/
structure Project where
  id : Option Nat := none
  name : String := ""
deriving DecidableEq, Repr

/-- JavaScript truthiness of an optional numeric id
(`task.recurring_parent_id` in the guard at line 137): `undefined`/`null` and
`0` are falsy. -/
def jsTruthyId : Option Nat → Bool
  | none => false
  | some n => n ≠ 0

/-- Result of an awaited promise: the resolved value or a thrown error
(landing in the `catch` arm). -/
inductive Res (α : Type) where
  | ok (a : α)
  | err
deriving DecidableEq, Repr

/-- An outward call of the component, in call order: `onEditParentTask`,
`onClose`, `onSave`. -/
inductive Signal where
  | editParentSig (t : Task)
  | closeSig
  | saveSig (payload : Task)
deriving DecidableEq, Repr

/-- The `useState` cells of TaskModal (restricted to those the verified
handlers touch), the `isOpen` prop as session state, provenance of the
optional `onEditParentTask` prop, plus instrumentation: the outward-call log
`emitted`, `console.error` / `showErrorToast` counters, and counters of
issued `fetchTaskById` / `fetchTags` requests together with their pending
flags. -/
structure ModalState where
  isOpen : Bool := false
  formData : Task := {}
  tags : List String := []
  newProjectName : String := ""
  parentTask : Option Task := none
  parentTaskLoading : Bool := false
  pendingParentFetch : Bool := false
  taskAnalysis : Option TaskAnalysis := none
  taskIntelligenceEnabled : Bool := true
  pendingFlagFetch : Bool := false
  tagsLoaded : Bool := false
  localAvailableTags : List String := []
  pendingTagsFetch : Bool := false
  onEditParentTaskProvided : Bool := true
  emitted : List Signal := []
  loggedErrors : Nat := 0
  errorToasts : Nat := 0
  parentFetchesIssued : Nat := 0
  tagsFetchesIssued : Nat := 0
deriving DecidableEq, Repr

/-- `fetchParentTask` (lines 136-155) up to its `await`: when
`task.recurring_parent_id && isOpen` it sets `parentTaskLoading` and issues
`fetchTaskById(task.recurring_parent_id)`; otherwise it sets the parent to
`null` without issuing a fetch. -/
def fetchParentTask_begin (task : Task) (s : ModalState) : ModalState :=
  if jsTruthyId task.recurring_parent_id ∧ s.isOpen then
    { s with parentTaskLoading := true
             pendingParentFetch := true
             parentFetchesIssued := s.parentFetchesIssued + 1 }
  else
    { s with parentTask := none }

/-- The continuation of `fetchParentTask` after the `await` (the `try` tail,
the `catch`, and the `finally`): on success `setParentTask(parent)`; on error
`console.error` then `setParentTask(null)`; in both cases
`setParentTaskLoading(false)`.  Note that no `isOpen` guard is re-checked
here — the resolved value is applied to state unconditionally. -/
def fetchParentTask_settle (res : Res Task) (s : ModalState) : ModalState :=
  match res with
  | Res.ok parent =>
      { s with parentTask := some parent
               parentTaskLoading := false
               pendingParentFetch := false }
  | Res.err =>
      { s with loggedErrors := s.loggedErrors + 1
               parentTask := none
               parentTaskLoading := false
               pendingParentFetch := false }

/-- The synchronous body of the `useEffect` at lines 117-156 (deps:
`[task, projects, isOpen, taskIntelligenceEnabled]`): sync `formData` and
`tags` from the `task` prop, run the analyzer when the modal is open, the
name truthy and intelligence enabled (else clear the analysis), sync
`newProjectName` from the matching project, then start `fetchParentTask`. -/
def syncTaskEffect (task : Task) (projects : List Project) (s : ModalState) : ModalState :=
  let s1 := { s with formData := task, tags := task.tags }
  let s2 :=
    if s1.isOpen ∧ task.name ≠ "" ∧ s1.taskIntelligenceEnabled then
      { s1 with taskAnalysis := some (analyzeTaskName task.name) }
    else
      { s1 with taskAnalysis := none }
  let s3 := { s2 with
    newProjectName :=
      ((projects.find? fun p => p.id == task.project_id).map Project.name).getD "" }
  fetchParentTask_begin task s3

/-- `fetchTaskIntelligenceSetting` (lines 159-176) up to its `await`: the
request is only issued while the modal is open. -/
def fetchTaskIntelligenceSetting_begin (s : ModalState) : ModalState :=
  if s.isOpen then { s with pendingFlagFetch := true } else s

/-- Continuation of `fetchTaskIntelligenceSetting`: on success apply the
fetched flag; on error `console.error` and default to enabled (`true`). -/
def fetchTaskIntelligenceSetting_settle (res : Res Bool) (s : ModalState) : ModalState :=
  match res with
  | Res.ok enabled =>
      { s with taskIntelligenceEnabled := enabled, pendingFlagFetch := false }
  | Res.err =>
      { s with loggedErrors := s.loggedErrors + 1
               taskIntelligenceEnabled := true
               pendingFlagFetch := false }

/-- `loadTags` (lines 198-222) up to its `await`: a `fetchTags` request is
issued only while the modal is open and `tagsLoaded` is still false. -/
def loadTags_begin (s : ModalState) : ModalState :=
  if s.isOpen ∧ ¬s.tagsLoaded then
    { s with pendingTagsFetch := true, tagsFetchesIssued := s.tagsFetchesIssued + 1 }
  else s

/-- Continuation of `loadTags`: on success store the fetched tags (the
source's `Array.isArray` normalisation is the identity on genuine arrays);
on error `console.error` and store `[]`.  Both arms set `tagsLoaded := true`
("even on error to prevent retry loop"). -/
def loadTags_settle (res : Res (List String)) (s : ModalState) : ModalState :=
  match res with
  | Res.ok fetched =>
      { s with localAvailableTags := fetched, tagsLoaded := true, pendingTagsFetch := false }
  | Res.err =>
      { s with loggedErrors := s.loggedErrors + 1
               localAvailableTags := []
               tagsLoaded := true
               pendingTagsFetch := false }

/-- `handleEditParent` (lines 178-183): only when a parent task is loaded and
the `onEditParentTask` prop was provided, call `onEditParentTask(parentTask)`
and then `onClose()` — in that order. -/
def handleEditParent (s : ModalState) : ModalState :=
  match s.parentTask with
  | some p =>
      if s.onEditParentTaskProvided then
        { s with emitted := s.emitted ++ [Signal.editParentSig p, Signal.closeSig] }
      else s
  | none => s

/-- `{...t, [field]: value}` on a recurrence-configuration key. -/
def setDynField (t : Task) (field : String) (value : Val) : Task :=
  { t with recurrence := setDyn t.recurrence field value }

/-- `handleParentRecurrenceChange` (lines 185-196): update the local parent
snapshot with `[field]: value` (when a parent is loaded), and update
`formData` with `[field]: value` plus `update_parent_recurrence: true`. -/
def handleParentRecurrenceChange (field : String) (value : Val) (s : ModalState) : ModalState :=
  let s1 :=
    match s.parentTask with
    | some p => { s with parentTask := some (setDynField p field value) }
    | none => s
  { s1 with formData :=
      { setDynField s1.formData field value with update_parent_recurrence := some true } }

/-- `{...prev, [name]: value}` for a form-input name (the inputs wired to
`handleChange` are `name`, `note` and `due_date`; any other computed key
falls into the dynamic part). -/
def setNamedField (t : Task) (k v : String) : Task :=
  if k = "name" then { t with name := v }
  else if k = "note" then { t with note := some v }
  else if k = "due_date" then { t with due_date := some v }
  else { t with recurrence := setDyn t.recurrence k (Val.s v) }

/-- `handleChange` (lines 234-247): write the changed input into `formData`;
when the `name` input changed and intelligence is enabled, re-run the
analyzer on the new value. -/
def handleChange (nm value : String) (s : ModalState) : ModalState :=
  let s1 := { s with formData := setNamedField s.formData nm value }
  if nm = "name" ∧ s1.taskIntelligenceEnabled then
    { s1 with taskAnalysis := some (analyzeTaskName value) }
  else s1

/-- `handleRecurrenceChange` (lines 249-251). -/
def handleRecurrenceChange (field : String) (value : Val) (s : ModalState) : ModalState :=
  { s with formData := setDynField s.formData field value }

/-- `handleTagsChange` (lines 253-259). -/
def handleTagsChange (newTags : List String) (s : ModalState) : ModalState :=
  { s with tags := newTags, formData := { s.formData with tags := newTags } }

/-- The inline `onStatusChange` prop of `TaskMetadataSection`
(lines 537-555): set the new status, and when it is `in_progress` also set
`today := true` ("Universal rule: when setting status to in_progress, also
add to today"). -/
def onStatusChange (value : StatusType) (s : ModalState) : ModalState :=
  let updatedData := { s.formData with status := some value }
  let updatedData :=
    if value = StatusType.in_progress then { updatedData with today := some true }
    else updatedData
  { s with formData := updatedData }

/-- The payload passed to `onSave` by `handleSubmit` (line 298):
`{...formData, tags: tags.map(tag => ({name: tag}))}`. -/
def buildSavePayload (s : ModalState) : Task :=
  { s.formData with tags := s.tags }

/-- `handleClose` (lines 345-352) together with the container's reaction to
`onClose`: emit the close signal, the session becomes closed, and
`tagsLoaded` is reset for the next open (the 300ms animation timeout is
collapsed). -/
def handleClose (s : ModalState) : ModalState :=
  { s with isOpen := false
           tagsLoaded := false
           emitted := s.emitted ++ [Signal.closeSig] }

/-- `handleSubmit` (lines 297-313): `onSave` with the built payload, then
`handleClose`. -/
def handleSubmit (s : ModalState) : ModalState :=
  handleClose { s with emitted := s.emitted ++ [Signal.saveSig (buildSavePayload s)] }

/-- The `onEditParent` prop wired into `TaskRecurrenceSection`
(lines 591-595): `parentTask ? handleEditParent : undefined` — the capability
is offered exactly when a parent task is loaded. -/
def onEditParentOffered (s : ModalState) : Bool :=
  s.parentTask.isSome

/-- One observable event of an editing session: an effect body running, an
awaited request settling, or a user-driven handler. -/
inductive Event where
  | syncTask (task : Task) (projects : List Project)
  | parentSettle (res : Res Task)
  | flagBegin
  | flagSettle (res : Res Bool)
  | tagsBegin
  | tagsSettle (res : Res (List String))
  | change (nm value : String)
  | statusChange (v : StatusType)
  | recurrenceChange (field : String) (v : Val)
  | parentRecChange (field : String) (v : Val)
  | tagsChange (l : List String)
  | editParent
  | submit
  | close
deriving DecidableEq, Repr

/-- Dispatch of one event to the handler it embeds. -/
def step (s : ModalState) : Event → ModalState
  | Event.syncTask task projects => syncTaskEffect task projects s
  | Event.parentSettle res => fetchParentTask_settle res s
  | Event.flagBegin => fetchTaskIntelligenceSetting_begin s
  | Event.flagSettle res => fetchTaskIntelligenceSetting_settle res s
  | Event.tagsBegin => loadTags_begin s
  | Event.tagsSettle res => loadTags_settle res s
  | Event.change nm v => handleChange nm v s
  | Event.statusChange v => onStatusChange v s
  | Event.recurrenceChange f v => handleRecurrenceChange f v s
  | Event.parentRecChange f v => handleParentRecurrenceChange f v s
  | Event.tagsChange l => handleTagsChange l s
  | Event.editParent => handleEditParent s
  | Event.submit => handleSubmit s
  | Event.close => handleClose s

/-- Run a list of events, oldest first. -/
def run (s : ModalState) : List Event → ModalState
  | [] => s
  | e :: es => run (step s e) es

/-! ## Concrete fixtures used by witnesses and counterexamples -/

/-- A recurring parent task (weekly recurrence, id 7). -/
def sampleParent : Task :=
  { id := some 7
    name := "Water plants weekly"
    recurrence := [("recurrence_type", Val.s "weekly")] }

/-- A generated child instance pointing back at `sampleParent`. -/
def sampleChild : Task :=
  { id := some 12
    name := "Water plants"
    recurring_parent_id := some 7 }

/-- An open editing session on `sampleChild` with the parent snapshot
loaded. -/
def sampleSession : ModalState :=
  { isOpen := true
    formData := sampleChild
    parentTask := some sampleParent }

/-- An open session whose tags fetch has already completed. -/
def sampleLoadedSession : ModalState :=
  { isOpen := true
    formData := sampleChild
    tagsLoaded := true
    localAvailableTags := ["home", "garden"]
    tagsFetchesIssued := 1 }

/-! ## Claim theorems -/

/-- C3: when `fetchTaskById` for a `recurring_parent_id` fails (e.g. the
parent was deleted), the session transitions to Open(no-parent): the parent
is set to `null`, loading ends, the error is logged via `console.error`, no
error toast is surfaced to the user, no outward signal is emitted, and the
session's open/closed state is untouched (the editing session continues). -/
theorem fetchParentTask_fail_noParent_spec (s : ModalState) :
    ((fetchParentTask_settle Res.err s).parentTask = none) ∧
    ((fetchParentTask_settle Res.err s).parentTaskLoading = false) ∧
    ((fetchParentTask_settle Res.err s).isOpen = s.isOpen) ∧
    ((fetchParentTask_settle Res.err s).loggedErrors = s.loggedErrors + 1) ∧
    ((fetchParentTask_settle Res.err s).errorToasts = s.errorToasts) ∧
    ((fetchParentTask_settle Res.err s).emitted = s.emitted) := by
  simp [fetchParentTask_settle]

/-- C4: for a task whose `recurring_parent_id` is absent, `fetchParentTask`
resolves the parent to `null` and issues no `fetchTaskById` call: the whole
effect equals setting `parentTask := none`, so in particular the issued-fetch
counter and the pending flag are unchanged. -/
theorem fetchParentTask_absent_noFetch_spec (task : Task) (s : ModalState)
    (h : task.recurring_parent_id = none) :
    (fetchParentTask_begin task s = { s with parentTask := none }) ∧
    ((fetchParentTask_begin task s).parentFetchesIssued = s.parentFetchesIssued) ∧
    ((fetchParentTask_begin task s).pendingParentFetch = s.pendingParentFetch) := by
  unfold fetchParentTask_begin
  simp [jsTruthyId, h]

/-- Witness for C4: the effect on a parentless task in a concrete open
session. -/
theorem fetchParentTask_absent_noFetch_witness :
    (fetchParentTask_begin { name := "Buy milk" } sampleLoadedSession
        = { sampleLoadedSession with parentTask := none }) ∧
    ((fetchParentTask_begin { name := "Buy milk" } sampleLoadedSession).parentFetchesIssued
        = sampleLoadedSession.parentFetchesIssued) ∧
    ((fetchParentTask_begin { name := "Buy milk" } sampleLoadedSession).pendingParentFetch
        = sampleLoadedSession.pendingParentFetch) :=
  fetchParentTask_absent_noFetch_spec { name := "Buy milk" } sampleLoadedSession rfl

/-- C6: when the asynchronous feature-flag fetch
(`getTaskIntelligenceEnabled`) fails, the task-intelligence setting defaults
to enabled (`true`); the error is logged, not propagated: no toast, no
outward signal, session state untouched. -/
theorem taskIntelligence_default_enabled_spec (s : ModalState) :
    ((fetchTaskIntelligenceSetting_settle Res.err s).taskIntelligenceEnabled = true) ∧
    ((fetchTaskIntelligenceSetting_settle Res.err s).isOpen = s.isOpen) ∧
    ((fetchTaskIntelligenceSetting_settle Res.err s).errorToasts = s.errorToasts) ∧
    ((fetchTaskIntelligenceSetting_settle Res.err s).loggedErrors = s.loggedErrors + 1) ∧
    ((fetchTaskIntelligenceSetting_settle Res.err s).emitted = s.emitted) := by
  simp [fetchTaskIntelligenceSetting_settle]

/-- C8: the status-change handler sets the pending payload's status to the
chosen value in every case, and in the same update sets `today := true`
exactly when that value is `in_progress`; for any other status the `today`
flag is left unchanged. -/
theorem onStatusChange_today_spec (s : ModalState) (v : StatusType) :
    ((onStatusChange v s).formData.status = some v) ∧
    ((onStatusChange v s).formData.today =
      (if v = StatusType.in_progress then some true else s.formData.today)) := by
  unfold onStatusChange
  by_cases h : v = StatusType.in_progress <;> simp [h]

/-- C1: a parent-recurrence edit is one atomic step of the state machine —
the single output state of `handleParentRecurrenceChange` (no intermediate
state exists) has the parent snapshot carrying the edited field/value and the
pending form data carrying the edited field/value together with
`update_parent_recurrence = true`; a subsequent `handleSubmit` emits an
`onSave` payload that still carries `update_parent_recurrence = true` and the
edited field/value. -/
theorem proposeParentEdit_commitEdit_spec (s : ModalState) (p : Task)
    (field : String) (value : Val) (hp : s.parentTask = some p) :
    ((handleParentRecurrenceChange field value s).parentTask
        = some (setDynField p field value)) ∧
    (getDyn (setDynField p field value).recurrence field = some value) ∧
    (getDyn (handleParentRecurrenceChange field value s).formData.recurrence field
        = some value) ∧
    ((handleParentRecurrenceChange field value s).formData.update_parent_recurrence
        = some true) ∧
    (getDyn (buildSavePayload (handleParentRecurrenceChange field value s)).recurrence field
        = some value) ∧
    ((buildSavePayload (handleParentRecurrenceChange field value s)).update_parent_recurrence
        = some true) ∧
    ((handleSubmit (handleParentRecurrenceChange field value s)).emitted
        = (handleParentRecurrenceChange field value s).emitted
            ++ [Signal.saveSig (buildSavePayload (handleParentRecurrenceChange field value s)),
                Signal.closeSig]) := by
  unfold handleParentRecurrenceChange handleSubmit handleClose buildSavePayload setDynField
  simp [hp, getDyn_setDyn_self]

/-- Witness for C1: editing `recurrence_type` to `"monthly"` on the sample
session with the sample parent loaded. -/
theorem proposeParentEdit_commitEdit_witness :
    (getDyn (buildSavePayload
        (handleParentRecurrenceChange "recurrence_type" (Val.s "monthly") sampleSession)).recurrence
        "recurrence_type" = some (Val.s "monthly")) ∧
    ((buildSavePayload
        (handleParentRecurrenceChange "recurrence_type" (Val.s "monthly") sampleSession)).update_parent_recurrence
        = some true) :=
  ⟨(proposeParentEdit_commitEdit_spec sampleSession sampleParent
      "recurrence_type" (Val.s "monthly") rfl).2.2.2.2.1,
   (proposeParentEdit_commitEdit_spec sampleSession sampleParent
      "recurrence_type" (Val.s "monthly") rfl).2.2.2.2.2.1⟩

/-- C5 counterexample: with a parent loaded, `handleEditParent` emits the
switch signal (`onEditParentTask`) BEFORE the close signal (`onClose`) — the
claim that the close precedes the switch signal is false at this concrete
session. -/
theorem navigateToParent_order_counterexample :
    ((handleEditParent sampleSession).emitted
        = [Signal.editParentSig sampleParent, Signal.closeSig]) ∧
    ((handleEditParent sampleSession).emitted
        ≠ [Signal.closeSig, Signal.editParentSig sampleParent]) := by
  decide

/-- C5 as amended: with a parent loaded (and the `onEditParentTask` prop
provided), invoking the handler emits the switch-to-parent signal and then
the close signal, in that order (the switch signal precedes the close); with
no parent loaded, the `onEditParent` capability is not offered at all, and
invoking the handler has no effect. -/
theorem navigateToParent_spec (s : ModalState) (p : Task) :
    (s.parentTask = some p → s.onEditParentTaskProvided = true →
      (handleEditParent s).emitted
        = s.emitted ++ [Signal.editParentSig p, Signal.closeSig]) ∧
    (s.parentTask = none →
      onEditParentOffered s = false ∧ handleEditParent s = s) := by
  constructor
  · intro hp hcb
    simp [handleEditParent, hp, hcb]
  · intro hn
    simp [handleEditParent, onEditParentOffered, hn]

/-- Witness for C5 (amended): the sample session with the parent loaded, and
a fresh session with no parent. -/
theorem navigateToParent_witness :
    ((handleEditParent sampleSession).emitted
        = sampleSession.emitted ++ [Signal.editParentSig sampleParent, Signal.closeSig]) ∧
    (onEditParentOffered { isOpen := true } = false ∧
      handleEditParent { isOpen := true } = { isOpen := true }) :=
  ⟨(navigateToParent_spec sampleSession sampleParent).1 rfl rfl,
   (navigateToParent_spec { isOpen := true } sampleParent).2 rfl⟩

/-- C7: with task intelligence enabled, opening the modal on a task titled
"Pay rent tomorrow" or typing that title into the name input runs the
analyzer and yields a suggestion set containing a due-date candidate for
"tomorrow" (analyzer modelled from the spec); with intelligence disabled, the
open effect clears the analysis to `null` for any title, and a name edit
never produces an analysis (the result stays whatever it was, so starting
from `null` it stays `null`). -/
theorem fetchParentTask_begin_taskAnalysis (task : Task) (s : ModalState) :
    (fetchParentTask_begin task s).taskAnalysis = s.taskAnalysis := by
  unfold fetchParentTask_begin
  split <;> rfl

theorem taskIntelligence_suggestions_spec (s : ModalState) (task : Task)
    (projects : List Project) (nm v : String) :
    (s.isOpen = true → s.taskIntelligenceEnabled = true →
      task.name = "Pay rent tomorrow" →
      (syncTaskEffect task projects s).taskAnalysis
          = some (analyzeTaskName "Pay rent tomorrow") ∧
      "tomorrow" ∈ (analyzeTaskName "Pay rent tomorrow").dueDateCandidates) ∧
    (s.taskIntelligenceEnabled = true →
      (handleChange "name" v s).taskAnalysis = some (analyzeTaskName v)) ∧
    (s.taskIntelligenceEnabled = false →
      (syncTaskEffect task projects s).taskAnalysis = none) ∧
    (s.taskIntelligenceEnabled = false →
      (handleChange nm v s).taskAnalysis = s.taskAnalysis) := by
  refine ⟨?_, ?_, ?_, ?_⟩
  · intro hopen hen hname
    constructor
    · unfold syncTaskEffect
      rw [fetchParentTask_begin_taskAnalysis]
      have hne : ("Pay rent tomorrow" : String) ≠ "" := by decide
      simp [hname, hopen, hen, hne]
    · decide
  · intro hen
    simp [handleChange, hen]
  · intro hdis
    unfold syncTaskEffect
    rw [fetchParentTask_begin_taskAnalysis]
    simp [hdis]
  · intro hdis
    simp [handleChange, hdis]

/-- Witness for C7: the sample session (enabled, open) on a task titled
"Pay rent tomorrow", and a session with intelligence disabled. -/
theorem taskIntelligence_suggestions_witness :
    ((syncTaskEffect { name := "Pay rent tomorrow" } [] sampleSession).taskAnalysis
        = some (analyzeTaskName "Pay rent tomorrow") ∧
      "tomorrow" ∈ (analyzeTaskName "Pay rent tomorrow").dueDateCandidates) ∧
    ((syncTaskEffect { name := "Pay rent tomorrow" } []
        { isOpen := true, taskIntelligenceEnabled := false }).taskAnalysis = none) ∧
    ((handleChange "name" "Pay rent tomorrow"
        { isOpen := true, taskIntelligenceEnabled := false }).taskAnalysis = none) :=
  ⟨(taskIntelligence_suggestions_spec sampleSession { name := "Pay rent tomorrow" }
      [] "name" "x").1 rfl rfl rfl,
   (taskIntelligence_suggestions_spec { isOpen := true, taskIntelligenceEnabled := false }
      { name := "Pay rent tomorrow" } [] "name" "x").2.2.1 rfl,
   (taskIntelligence_suggestions_spec { isOpen := true, taskIntelligenceEnabled := false }
      { name := "Pay rent tomorrow" } [] "name" "Pay rent tomorrow").2.2.2 rfl⟩

/-- C2 counterexample: open a session on `sampleChild` (which issues the
parent fetch), close it before the fetch resolves (the effect re-runs on the
closed session and resets the parent to `null`), then let the fetch resolve
with `sampleParent`.  The resolved parent IS written into the parent-task
state — the fetched result is not discarded, because no session-still-open
guard is checked before the result is applied. -/
theorem loadParent_discard_counterexample :
    ((handleClose (syncTaskEffect sampleChild [] { isOpen := true })).isOpen = false) ∧
    ((syncTaskEffect sampleChild []
        (handleClose (syncTaskEffect sampleChild [] { isOpen := true }))).parentTask
        = none) ∧
    ((fetchParentTask_settle (Res.ok sampleParent)
        (syncTaskEffect sampleChild []
          (handleClose (syncTaskEffect sampleChild [] { isOpen := true })))).isOpen
        = false) ∧
    ((fetchParentTask_settle (Res.ok sampleParent)
        (syncTaskEffect sampleChild []
          (handleClose (syncTaskEffect sampleChild [] { isOpen := true })))).parentTask
        = some sampleParent) ∧
    ((fetchParentTask_settle (Res.ok sampleParent)
        (syncTaskEffect sampleChild []
          (handleClose (syncTaskEffect sampleChild [] { isOpen := true })))).parentTask
        ≠ none) := by
  decide

/-- C2 as amended: closing the session before the in-flight parent fetch
resolves leaves the session state Closed no matter when or how the fetch
later settles; but the fetched result is NOT discarded — the session-open
guard is checked only before issuing the fetch (a closed session issues
none), not before applying the result, so a late successful resolution is
still applied to the parent-task state. -/
theorem loadParent_after_close_spec (s : ModalState) (res : Res Task)
    (p : Task) (task : Task) :
    ((fetchParentTask_settle res (handleClose s)).isOpen = false) ∧
    ((fetchParentTask_settle (Res.ok p) (handleClose s)).parentTask = some p) ∧
    (s.isOpen = false →
      (fetchParentTask_begin task s).parentFetchesIssued = s.parentFetchesIssued ∧
      (fetchParentTask_begin task s).pendingParentFetch = s.pendingParentFetch) := by
  refine ⟨?_, rfl, ?_⟩
  · cases res <;> rfl
  · intro hclosed
    unfold fetchParentTask_begin
    simp [hclosed]

/-- Witness for C2 (amended): closing the sample session, resolving with the
sample parent, and the issuing guard on the closed session. -/
theorem loadParent_after_close_witness :
    ((fetchParentTask_settle (Res.ok sampleParent) (handleClose sampleSession)).isOpen
        = false) ∧
    ((fetchParentTask_settle (Res.ok sampleParent) (handleClose sampleSession)).parentTask
        = some sampleParent) ∧
    ((fetchParentTask_begin sampleChild (handleClose sampleSession)).parentFetchesIssued
        = (handleClose sampleSession).parentFetchesIssued ∧
      (fetchParentTask_begin sampleChild (handleClose sampleSession)).pendingParentFetch
        = (handleClose sampleSession).pendingParentFetch) :=
  ⟨(loadParent_after_close_spec sampleSession (Res.ok sampleParent) sampleParent sampleChild).1,
   (loadParent_after_close_spec sampleSession (Res.ok sampleParent) sampleParent sampleChild).2.1,
   (loadParent_after_close_spec (handleClose sampleSession) (Res.ok sampleParent)
      sampleParent sampleChild).2.2 rfl⟩

theorem jsArrayGet_priorityNames (q : ℚ) :
    jsArrayGet priorityNames q =
      (if q = 0 then some PriorityType.low
       else if q = 1 then some PriorityType.medium
       else if q = 2 then some PriorityType.high
       else none) := by
  by_cases h0 : q = 0
  · subst h0; decide
  by_cases h1 : q = 1
  · subst h1; decide
  by_cases h2 : q = 2
  · subst h2; decide
  rw [if_neg h0, if_neg h1, if_neg h2]
  unfold jsArrayGet
  by_cases hd : q.den = 1 ∧ 0 ≤ q.num
  · rw [if_pos hd]
    obtain ⟨hden, hnum⟩ := hd
    have hq := Rat.coe_int_num_of_den_eq_one hden
    rcases h3 : q.num.toNat with _ | _ | _ | m
    · exfalso
      apply h0
      have hn : q.num = 0 := by omega
      rw [← hq, hn]
      norm_num
    · exfalso
      apply h1
      have hn : q.num = 1 := by omega
      rw [← hq, hn]
      norm_num
    · exfalso
      apply h2
      have hn : q.num = 2 := by omega
      rw [← hq, hn]
      norm_num
    · rfl
  · rw [if_neg hd]

/-- C9: `getPriorityString` is a total function whose result is always one of
`low`, `medium`, `high`; a numeric priority 0 / 1 / 2 maps to
`low` / `medium` / `high`, and every other number — negative, at least 3, or
non-integer — maps to `medium` (JavaScript array indexing misses and
`|| 'medium'` kicks in); a missing priority maps to `medium`; a string
priority is returned unchanged. -/
theorem getPriorityString_total_spec :
    (∀ x : Option JsPriority,
        getPriorityString x = PriorityType.low ∨
        getPriorityString x = PriorityType.medium ∨
        getPriorityString x = PriorityType.high) ∧
    (∀ q : ℚ, getPriorityString (some (JsPriority.num q)) =
        (if q = 0 then PriorityType.low
         else if q = 1 then PriorityType.medium
         else if q = 2 then PriorityType.high
         else PriorityType.medium)) ∧
    (∀ p : PriorityType, getPriorityString (some (JsPriority.str p)) = p) ∧
    (getPriorityString none = PriorityType.medium) := by
  have hnum : ∀ q : ℚ, getPriorityString (some (JsPriority.num q)) =
      (if q = 0 then PriorityType.low
       else if q = 1 then PriorityType.medium
       else if q = 2 then PriorityType.high
       else PriorityType.medium) := by
    intro q
    show (jsArrayGet priorityNames q).getD PriorityType.medium = _
    rw [jsArrayGet_priorityNames]
    split_ifs <;> rfl
  refine ⟨?_, hnum, fun p => rfl, rfl⟩
  intro x
  cases h : getPriorityString x with
  | low => exact Or.inl rfl
  | medium => exact Or.inr (Or.inl rfl)
  | high => exact Or.inr (Or.inr rfl)

theorem fetchParentTask_begin_tags (task : Task) (s : ModalState) :
    (fetchParentTask_begin task s).tagsLoaded = s.tagsLoaded ∧
    (fetchParentTask_begin task s).tagsFetchesIssued = s.tagsFetchesIssued := by
  unfold fetchParentTask_begin
  split <;> exact ⟨rfl, rfl⟩

theorem syncTaskEffect_tags (task : Task) (projects : List Project) (s : ModalState) :
    (syncTaskEffect task projects s).tagsLoaded = s.tagsLoaded ∧
    (syncTaskEffect task projects s).tagsFetchesIssued = s.tagsFetchesIssued := by
  unfold syncTaskEffect
  constructor
  · rw [(fetchParentTask_begin_tags _ _).1]
    split <;> rfl
  · rw [(fetchParentTask_begin_tags _ _).2]
    split <;> rfl

/-- Every event except `close` and `submit` keeps a completed tags fetch
completed (`tagsLoaded = true`) and issues no further `fetchTags` request. -/
theorem step_preserves_tagsLoaded (s : ModalState) (e : Event)
    (hc : e ≠ Event.close) (hs : e ≠ Event.submit) (h : s.tagsLoaded = true) :
    (step s e).tagsLoaded = true ∧ (step s e).tagsFetchesIssued = s.tagsFetchesIssued := by
  cases e with
  | syncTask task projects =>
      exact ⟨((syncTaskEffect_tags task projects s).1).trans h,
             (syncTaskEffect_tags task projects s).2⟩
  | parentSettle res => cases res <;> exact ⟨h, rfl⟩
  | flagBegin =>
      constructor
      · show (fetchTaskIntelligenceSetting_begin s).tagsLoaded = true
        unfold fetchTaskIntelligenceSetting_begin
        split <;> exact h
      · show (fetchTaskIntelligenceSetting_begin s).tagsFetchesIssued = s.tagsFetchesIssued
        unfold fetchTaskIntelligenceSetting_begin
        split <;> rfl
  | flagSettle res => cases res <;> exact ⟨h, rfl⟩
  | tagsBegin =>
      constructor
      · show (loadTags_begin s).tagsLoaded = true
        unfold loadTags_begin
        simp [h]
      · show (loadTags_begin s).tagsFetchesIssued = s.tagsFetchesIssued
        unfold loadTags_begin
        simp [h]
  | tagsSettle res => cases res <;> exact ⟨rfl, rfl⟩
  | change nm v =>
      constructor
      · show (handleChange nm v s).tagsLoaded = true
        simp only [handleChange]
        split <;> exact h
      · show (handleChange nm v s).tagsFetchesIssued = s.tagsFetchesIssued
        simp only [handleChange]
        split <;> rfl
  | statusChange v => exact ⟨h, rfl⟩
  | recurrenceChange f v => exact ⟨h, rfl⟩
  | parentRecChange f v =>
      constructor
      · show (handleParentRecurrenceChange f v s).tagsLoaded = true
        unfold handleParentRecurrenceChange
        cases s.parentTask <;> exact h
      · show (handleParentRecurrenceChange f v s).tagsFetchesIssued = s.tagsFetchesIssued
        unfold handleParentRecurrenceChange
        cases s.parentTask <;> rfl
  | tagsChange l => exact ⟨h, rfl⟩
  | editParent =>
      constructor
      · show (handleEditParent s).tagsLoaded = true
        unfold handleEditParent
        cases s.parentTask with
        | none => exact h
        | some p =>
            by_cases hcb : s.onEditParentTaskProvided = true <;> simp [hcb, h]
      · show (handleEditParent s).tagsFetchesIssued = s.tagsFetchesIssued
        unfold handleEditParent
        cases s.parentTask with
        | none => rfl
        | some p =>
            by_cases hcb : s.onEditParentTaskProvided = true <;> simp [hcb]
  | submit => exact absurd rfl hs
  | close => exact absurd rfl hc

/-- C10: the `fetchTags` request is issued at most once per open session.
After the request completes — successfully or with an error, the error being
swallowed into an empty tag list with no user-visible toast — `tagsLoaded`
is `true`, the guard makes `loadTags` a no-op, and along any sequence of
session events that does not close the session (no `close`, no `submit`) no
further `fetchTags` request is ever issued; closing via `handleClose` resets
the `tagsLoaded` guard for the next open. -/
theorem tagsFetch_at_most_once_spec :
    (∀ (s : ModalState) (evs : List Event),
        (∀ e ∈ evs, e ≠ Event.close ∧ e ≠ Event.submit) →
        s.tagsLoaded = true →
        (run s evs).tagsLoaded = true ∧
        (run s evs).tagsFetchesIssued = s.tagsFetchesIssued) ∧
    (∀ (res : Res (List String)) (s : ModalState),
        (loadTags_settle res s).tagsLoaded = true) ∧
    (∀ s : ModalState,
        (loadTags_settle Res.err s).localAvailableTags = [] ∧
        (loadTags_settle Res.err s).errorToasts = s.errorToasts) ∧
    (∀ s : ModalState, s.tagsLoaded = true → loadTags_begin s = s) ∧
    (∀ s : ModalState, (handleClose s).tagsLoaded = false) := by
  refine ⟨?_, ?_, ?_, ?_, fun s => rfl⟩
  · intro s evs
    induction evs generalizing s with
    | nil => exact fun _ h => ⟨h, rfl⟩
    | cons e es ih =>
        intro hall h
        have he := hall e (List.mem_cons_self e es)
        have hstep := step_preserves_tagsLoaded s e he.1 he.2 h
        have ihs := ih (step s e) (fun x hx => hall x (List.mem_cons_of_mem e hx)) hstep.1
        exact ⟨ihs.1, ihs.2.trans hstep.2⟩
  · intro res s
    cases res <;> rfl
  · exact fun s => ⟨rfl, rfl⟩
  · intro s h
    unfold loadTags_begin
    simp [h]

/-- Witness for C10: on the sample session whose tags fetch has completed, a
close-free event sequence issues no further tags fetch, and the guard makes
`loadTags` the identity. -/
theorem tagsFetch_at_most_once_witness :
    ((run sampleLoadedSession
        [Event.tagsBegin, Event.flagBegin, Event.change "name" "Buy milk"]).tagsLoaded
        = true ∧
      (run sampleLoadedSession
        [Event.tagsBegin, Event.flagBegin, Event.change "name" "Buy milk"]).tagsFetchesIssued
        = sampleLoadedSession.tagsFetchesIssued) ∧
    (loadTags_begin sampleLoadedSession = sampleLoadedSession) :=
  ⟨tagsFetch_at_most_once_spec.1 sampleLoadedSession
      [Event.tagsBegin, Event.flagBegin, Event.change "name" "Buy milk"]
      (by decide) rfl,
   tagsFetch_at_most_once_spec.2.2.2.1 sampleLoadedSession rfl⟩

end Tududi
